import Mathlib

/-! # sqlpp11: the floating-point value type and the MAX wrapper

A shallow embedding of `include/sqlpp11/floating_point.h` (parameter binder,
result cell, operand check and composition operators) and of
`include/sqlpp11/max.h` (the MAX node, its serializer and `sqlpp::max`),
followed by the properties proved about it.

Conventions of the embedding:

* `double` is the IEEE-754 binary64 format, field by field;
* a `const char*` is an `Option String`: `none` is the null pointer, `some s`
  points at the NUL-terminated text `s`;
* a member function that mutates `*this` takes the object and returns the new
  object; a member function that can throw or trip an `assert` returns an
  `Except failure _`;
* a `static_assert` that fails rejects the construction: the operator returns
  `Except.error` with the assertion's message and builds no node;
* template parameters (`Db`, `NullIsTrivial`, `Base`, `T`, `Target`) are
  ordinary arguments.
-/

namespace sqlpp

/-! ## C++ `double` and the integer-to-double conversion -/

/-- IEEE-754 binary64: sign bit, 11-bit biased exponent, 52-bit fraction. -/
structure double where
  sign : Bool
  exponent : Fin 2048
  fraction : Fin 4503599627370496
deriving DecidableEq

namespace double

/-- Number of binary digits of `n`, for `n < 2 ^ fuel`. -/
def bit_length_aux : Nat → Nat → Nat
  | 0, _ => 0
  | fuel + 1, n => if n = 0 then 0 else bit_length_aux fuel (n / 2) + 1

/-- Number of binary digits of the magnitude of a 64-bit integer. -/
def bit_length (n : Nat) : Nat := bit_length_aux 64 n

/-- Assemble a double from a sign, a biased exponent and a fraction. -/
def pack (s : Bool) (e f : Nat) : double :=
  ⟨s, ⟨e % 2048, Nat.mod_lt _ (by norm_num)⟩,
      ⟨f % 4503599627370496, Nat.mod_lt _ (by norm_num)⟩⟩

/-- The implicit conversion of a (64-bit) integer to `double`: exact when the
magnitude has at most 53 binary digits, rounded to nearest (ties to even)
otherwise. -/
def of_integer (n : Int) : double :=
  if n = 0 then pack false 0 0
  else
    let m := n.natAbs
    let k := bit_length m - 1
    let s := decide (n < 0)
    if k ≤ 52 then pack s (1023 + k) (m * 2 ^ (52 - k) - 2 ^ 52)
    else
      let shift := k - 52
      let q := m / 2 ^ shift
      let r := m % 2 ^ shift
      let half := 2 ^ (shift - 1)
      let q1 := if half < r ∨ (r = half ∧ q % 2 = 1) then q + 1 else q
      if q1 = 2 ^ 53 then pack s (1023 + k + 1) 0
      else pack s (1023 + k) (q1 - 2 ^ 52)

/-- The double `+0.0`. -/
def positive_zero : double := ⟨false, 0, 0⟩

/-- The double `1.5`: sign 0, biased exponent 1023, fraction `2 ^ 51`. -/
def one_and_a_half : double := ⟨false, 1023, 2251799813685248⟩

/-- The rational number a double stands for; `none` for infinities and NaNs. -/
def to_rat (d : double) : Option ℚ :=
  if d.exponent.val = 2047 then none
  else
    let sgn : ℚ := if d.sign then -1 else 1
    if d.exponent.val = 0 then some (sgn * d.fraction.val * 2 ^ (-1074 : ℤ))
    else some (sgn * (2 ^ 52 + d.fraction.val) * 2 ^ ((d.exponent.val : ℤ) - 1075))

end double

/-! ## `std::strtoll(nptr, nullptr, 10)` -/

/-- Largest `long long`. -/
def LLONG_MAX : Int := 9223372036854775807

/-- Smallest `long long`. -/
def LLONG_MIN : Int := -9223372036854775808

/-- The C `isspace` in the "C" locale: space, and HT, LF, VT, FF, CR. -/
def isspace (c : Char) : Bool :=
  c.toNat = 32 || (9 ≤ c.toNat && c.toNat ≤ 13)

/-- The value of the longest prefix of decimal digits, continuing from `acc`. -/
def strtoll_digits : Nat → List Char → Nat
  | acc, [] => acc
  | acc, c :: cs =>
    if c.isDigit then strtoll_digits (acc * 10 + (c.toNat - 48)) cs else acc

/-- An out-of-range result of `strtoll` is replaced by the nearest bound. -/
def strtoll_clamp (v : Int) : Int :=
  if v < LLONG_MIN then LLONG_MIN else if LLONG_MAX < v then LLONG_MAX else v

/-- The call `std::strtoll(nptr, nullptr, 10)` of the C library: skip leading
white space, read an optional sign, then the longest run of decimal digits;
what follows is ignored; no digits give 0; out-of-range values saturate. -/
def strtoll (nptr : List Char) : Int :=
  match nptr.dropWhile isspace with
  | [] => 0
  | c :: cs =>
    if c = '-' then strtoll_clamp (-(strtoll_digits 0 cs : Int))
    else if c = '+' then strtoll_clamp (strtoll_digits 0 cs)
    else strtoll_clamp (strtoll_digits 0 (c :: cs))

/-- The base-10 text of an integer: a minus sign if it is negative, then the
decimal digits of its magnitude. -/
def decimal_text (n : Int) : List Char :=
  if n < 0 then '-' :: Nat.toDigits 10 n.natAbs else Nat.toDigits 10 n.natAbs

/-! ## Failures and connector flags -/

/-- How a member function can fail: a thrown `sqlpp::exception` carrying its
message, or a violated `assert`. -/
inductive failure where
  | exception (what : String)
  | assert_failure
deriving DecidableEq

deriving instance DecidableEq for Except

/-- The two compile-time flags a connector `Db` provides, read in the source
through `connector_assert_result_validity_t<Db>::value` and
`connector_null_result_is_trivial_value_t<Db>::value`. -/
structure Db where
  connector_assert_result_validity_t : Bool
  connector_null_result_is_trivial_value_t : Bool
deriving DecidableEq

/-! ## Type traits, value kinds and expression nodes -/

/-- A value kind: the compile-time capability markers a value-type struct
declares (`using _is_numeric = std::true_type;` and so on); a marker that is
not declared reads as `false`. -/
structure value_type where
  _is_numeric : Bool := false
  _is_floating_point : Bool := false
  _is_value : Bool := false
  _is_expression : Bool := false
  _is_named_expression : Bool := false
deriving DecidableEq

/-- What the traits `is_expression_t<T>`, `is_numeric_t<T>` and `is_value_t<T>`
of `type_traits.h` answer for a type `T`. The header is not among the sources,
so the three answers are parameters of every definition that reads them. -/
class type_traits (T : Type) where
  is_expression_t : Bool
  is_numeric_t : Bool
  is_value_t : Bool

/-- A failing `static_assert(c, msg)` rejects the instantiation with `msg`. -/
def static_assert (c : Bool) (msg : String) : Except String Unit :=
  if c then .ok () else .error msg

/-- What `Expr::_value_type` and `Expr::_value_type::_base_value_type` name for
an expression type `Expr`; both are declared with the expression type, outside
the sources here, so they are parameters. -/
class expression_value_type (Expr : Type) where
  _value_type : value_type
  _base_value_type : value_type

/-- Modelled from the spec: a serialization context, an accumulating text
buffer with an append-text operation (`context << text`); a context can carry
more than its text. -/
class output_context (Context : Type) where
  append : Context → String → Context
  text : Context → String
  text_append : ∀ (context : Context) (s : String), text (append context s) = text context ++ s

/-- The rendering routine `serializer_t<Context, T>::_(t, context)` of a node
type `T` for a context type `Context`; the routine is a static member named
by an underscore in the source. -/
class serializer_t (Context : Type) (T : Type) where
  underscore : T → Context → Context

/-- Modelled from the spec: the dispatch `serialize(t, context)`, which calls
the rendering routine registered for the pair of node type and context type. -/
def serialize {Context T : Type} [inst : serializer_t Context T] (t : T)
    (context : Context) : Context :=
  inst.underscore t context

namespace vendor

/-- Modelled from the spec: the node `vendor::plus_t<Lhs, O, Rhs>` (declared in
a header that is not among the sources), an operation node of value kind `O`
that owns its left and right operand. -/
structure plus_t (Lhs : Type) (O : value_type) (Rhs : Type) where
  _lhs : Lhs
  _rhs : Rhs
deriving DecidableEq

/-- Modelled from the spec: the node `vendor::minus_t<Lhs, O, Rhs>`, owning its
two operands. -/
structure minus_t (Lhs : Type) (O : value_type) (Rhs : Type) where
  _lhs : Lhs
  _rhs : Rhs
deriving DecidableEq

/-- Modelled from the spec: the node `vendor::multiplies_t<Lhs, O, Rhs>`, owning
its two operands. -/
structure multiplies_t (Lhs : Type) (O : value_type) (Rhs : Type) where
  _lhs : Lhs
  _rhs : Rhs
deriving DecidableEq

/-- Modelled from the spec: the node `vendor::divides_t<Lhs, Rhs>`, owning its
two operands. -/
structure divides_t (Lhs : Type) (Rhs : Type) where
  _lhs : Lhs
  _rhs : Rhs
deriving DecidableEq

/-- Modelled from the spec: the node `vendor::unary_plus_t<O, Rhs>`, owning its
operand. -/
structure unary_plus_t (O : value_type) (Rhs : Type) where
  _rhs : Rhs
deriving DecidableEq

/-- Modelled from the spec: the node `vendor::unary_minus_t<O, Rhs>`, owning its
operand. -/
structure unary_minus_t (O : value_type) (Rhs : Type) where
  _rhs : Rhs
deriving DecidableEq

/-- Modelled from the spec: the node `vendor::assignment_t<Lhs, Rhs>`, pairing
an assignable target with the expression assigned to it. -/
structure assignment_t (Lhs : Type) (Rhs : Type) where
  _lhs : Lhs
  _rhs : Rhs
deriving DecidableEq

/-- Modelled from the spec: the literal node that operand wrapping builds from
a text scalar (`vendor::wrap_operand_t<std::string>`). -/
structure text_operand where
  _t : String
deriving DecidableEq

/-- Modelled from the spec: a wrapped text literal is an expression and a
value, and it is not numeric. -/
instance text_operand_traits : type_traits text_operand where
  is_expression_t := true
  is_numeric_t := false
  is_value_t := true

/-- Modelled from the spec: the literal node that operand wrapping builds from
a floating-point scalar (`vendor::wrap_operand_t<double>`). -/
structure floating_point_operand where
  _t : double
deriving DecidableEq

/-- Modelled from the spec: a wrapped floating-point literal is a numeric
value expression. -/
instance floating_point_operand_traits : type_traits floating_point_operand where
  is_expression_t := true
  is_numeric_t := true
  is_value_t := true

/-- An operand type whose value type declares `_is_numeric` and
`_is_expression` and does not declare `_is_value`. -/
structure numeric_non_value_operand where
  _t : Int
deriving DecidableEq

/-- The trait answers for `numeric_non_value_operand`. -/
instance numeric_non_value_operand_traits : type_traits numeric_non_value_operand where
  is_expression_t := true
  is_numeric_t := true
  is_value_t := false

/-- An operand type that is no value: none of its markers is declared. -/
structure non_value_operand where
  _t : String
deriving DecidableEq

/-- The trait answers for `non_value_operand`. -/
instance non_value_operand_traits : type_traits non_value_operand where
  is_expression_t := false
  is_numeric_t := false
  is_value_t := false

/-! ## `vendor::max_t` -/

/-- The node `vendor::max_t<Expr>`: its only data member is `Expr _expr`. -/
structure max_t (Expr : Type) where
  _expr : Expr
deriving DecidableEq

namespace max_t

/-- Constructor `max_t(Expr expr)`, under the `static_assert` of the class
body, which rejects every instantiation with an `Expr` that is no value. -/
def ctor {Expr : Type} [inst : type_traits Expr] (expr : Expr) :
    Except String (max_t Expr) := do
  static_assert inst.is_value_t "max() requires a value expression as argument"
  return { _expr := expr }

/-- The nested `struct _value_type`: it derives from
`Expr::_value_type::_base_value_type` and declares
`using _is_named_expression = std::true_type;`. -/
def _value_type (Expr : Type) [inst : expression_value_type Expr] : value_type :=
  { inst._base_value_type with _is_named_expression := true }

/-- The static member `_name_t::_get_name()`. -/
def _get_name : String := "MAX"

end max_t

/-- The specialization `serializer_t<Context, vendor::max_t<Expr>>`. -/
instance max_t_serializer {Context Expr : Type} [output_context Context]
    [serializer_t Context Expr] : serializer_t Context (max_t Expr) where
  underscore t context :=
    let context := output_context.append context "MAX("
    let context := serialize t._expr context
    let context := output_context.append context ")"
    context

end vendor

/-- The function template `sqlpp::max(T t)`; `Rhs` is `vendor::wrap_operand_t<T>`
and `wrap_operand` is the conversion of `t` that `return { t }` performs. -/
def max {T Rhs : Type} [inst : type_traits Rhs] (wrap_operand : T → Rhs) (t : T) :
    Except String (vendor.max_t Rhs) := do
  static_assert inst.is_value_t "max() requires a value expression as argument"
  vendor.max_t.ctor (wrap_operand t)

/-- Modelled from the spec: a context that is nothing but its text buffer. -/
structure string_context where
  buffer : String
deriving DecidableEq

/-- Appending to a `string_context` extends its buffer. -/
instance string_context_output : output_context string_context where
  append context s := { buffer := context.buffer ++ s }
  text context := context.buffer
  text_append _ _ := rfl

/-- Modelled from the spec: a column reference, the leaf an expression tree
starts from; it stands for the `Base` of the operator templates. -/
structure column_t where
  _name : String
deriving DecidableEq

/-- Modelled from the spec: a column is a value expression; the column used in
the examples is of the floating-point kind. -/
instance column_t_traits : type_traits column_t where
  is_expression_t := true
  is_numeric_t := true
  is_value_t := true

/-- Modelled from the spec: a column reference renders as its name. -/
instance column_t_serializer {Context : Type} [output_context Context] :
    serializer_t Context column_t where
  underscore t context := output_context.append context t._name

namespace detail

/-- The markers `struct floating_point` declares. -/
def floating_point : value_type :=
  { _is_numeric := true
    _is_floating_point := true
    _is_value := true
    _is_expression := true }

/-- Modelled from the spec: the example column is of the floating-point kind,
whose `_base_value_type` is `floating_point` itself. -/
instance column_t_value_type : expression_value_type column_t where
  _value_type := floating_point
  _base_value_type := floating_point

namespace floating_point

/-- The C++ type of a floating-point value: `using _cpp_value_type = double`. -/
abbrev _cpp_value_type := double

/-! ## `floating_point::_parameter_t` -/

/-- Parameter binder: `floating_point::_parameter_t`. -/
structure _parameter_t where
  _value : _cpp_value_type
  _is_null : Bool
deriving DecidableEq

/-- A backend statement `Target` that offers the member function
`_bind_floating_point_parameter(index, const double* value, bool is_null)`;
the call returns the target as the call leaves it. -/
class parameter_target (Target : Type) where
  _bind_floating_point_parameter : Target → Nat → _cpp_value_type → Bool → Target

namespace _parameter_t

/-- Default constructor `_parameter_t()`. -/
def ctor : _parameter_t :=
  { _value := double.of_integer 0, _is_null := true }

/-- Constructor `_parameter_t(const _cpp_value_type& value)`. -/
def ctor_value (value : _cpp_value_type) : _parameter_t :=
  { _value := value, _is_null := false }

/-- Assignment `operator=(const _cpp_value_type& value)`. -/
def assign_value (_self : _parameter_t) (value : _cpp_value_type) : _parameter_t :=
  { _value := value, _is_null := false }

/-- Assignment `operator=(const std::nullptr_t&)`. -/
def assign_null (_self : _parameter_t) : _parameter_t :=
  { _value := double.of_integer 0, _is_null := true }

/-- Member `bool is_null() const`. -/
def is_null (self : _parameter_t) : Bool := self._is_null

/-- Member `const _cpp_value_type& value() const`. -/
def value (self : _parameter_t) : _cpp_value_type := self._value

/-- Member `void _bind(Target& target, size_t index) const`: the binder and the
target as the call leaves them. -/
def _bind {Target : Type} [parameter_target Target]
    (self : _parameter_t) (target : Target) (index : Nat) : _parameter_t × Target :=
  (self, parameter_target._bind_floating_point_parameter target index self._value self._is_null)

/-- The states a binder can be in: those of the two constructors, closed under
the two assignments. -/
inductive reachable : _parameter_t → Prop where
  | ctor : reachable ctor
  | ctor_value (value : _cpp_value_type) : reachable (ctor_value value)
  | assign_value (p : _parameter_t) (value : _cpp_value_type) :
      reachable p → reachable (p.assign_value value)
  | assign_null (p : _parameter_t) : reachable p → reachable p.assign_null

end _parameter_t

/-- A target that records the calls of its parameter hook, oldest first. -/
structure recording_target where
  calls : List (Nat × _cpp_value_type × Bool)
deriving DecidableEq

/-- The hook of the recording target appends its arguments to the record. -/
instance recording_target_hook : parameter_target recording_target where
  _bind_floating_point_parameter target index value is_null :=
    { calls := target.calls ++ [(index, value, is_null)] }

/-! ## `floating_point::_result_entry_t` -/

/-- Result cell: `floating_point::_result_entry_t<Db, NullIsTrivial>`. -/
structure _result_entry_t where
  _is_valid : Bool
  _is_null : Bool
  _value : _cpp_value_type
deriving DecidableEq

/-- A backend `Target` that offers the member function
`_bind_floating_point_result(index, double* value, bool* is_null)`: the hook
gets the index and what the two pointers point at, and the call returns the
target together with what the backend leaves behind the two pointers. -/
class result_target (Target : Type) where
  _bind_floating_point_result :
    Target → Nat → _cpp_value_type → Bool → Target × _cpp_value_type × Bool

/-- The C `assert(c)` of a build with assertions enabled. -/
def c_assert (c : Bool) : Except failure Unit :=
  if c then .ok () else .error failure.assert_failure

namespace _result_entry_t

/-- Default constructor `_result_entry_t()`. -/
def ctor : _result_entry_t :=
  { _is_valid := false, _is_null := true, _value := double.of_integer 0 }

/-- Constructor `_result_entry_t(const char* data, size_t)`. The members are
initialised in declaration order, so `_value` reads the `_is_null` just set:
`_is_null ? 0 : std::strtoll(data, nullptr, 10)`, converted to `double`. -/
def ctor_data (data : Option String) (_len : Nat) : _result_entry_t :=
  { _is_valid := true
    _is_null := data.isNone
    _value := double.of_integer
      (match data with
       | none => 0
       | some s => strtoll s.toList) }

/-- Member `void assign(const char* data, size_t)`: the stored value is
`_is_null ? 0 : std::strtoll(data, nullptr, 10)`, converted to `double`. -/
def assign (_self : _result_entry_t) (data : Option String) (_len : Nat) : _result_entry_t :=
  { _is_valid := true
    _is_null := data.isNone
    _value := double.of_integer
      (match data with
       | none => 0
       | some s => strtoll s.toList) }

/-- Member `void validate()`. -/
def validate (self : _result_entry_t) : _result_entry_t :=
  { self with _is_valid := true }

/-- Member `void invalidate()`. -/
def invalidate (_self : _result_entry_t) : _result_entry_t :=
  { _is_valid := false, _is_null := true, _value := double.of_integer 0 }

/-- Member `bool is_null() const`. -/
def is_null (db : Db) (self : _result_entry_t) : Except failure Bool := do
  if db.connector_assert_result_validity_t then
    c_assert self._is_valid
  else if !self._is_valid then
    throw (failure.exception "accessing is_null in non-existing row")
  return self._is_null

/-- Member `_cpp_value_type value() const`. -/
def value (db : Db) (NullIsTrivial : Bool) (self : _result_entry_t) :
    Except failure _cpp_value_type := do
  let null_value : Bool :=
    self._is_null && !NullIsTrivial && !db.connector_null_result_is_trivial_value_t
  if db.connector_assert_result_validity_t then
    c_assert self._is_valid
    c_assert (!null_value)
  else
    if !self._is_valid then
      throw (failure.exception "accessing value in non-existing row")
    if null_value then
      throw (failure.exception "accessing value of NULL field")
  return self._value

/-- Member `void _bind(Target& target, size_t i)`: the hook is handed `&_value`
and `&_is_null`, so the two members become what the backend leaves in them;
the result is the cell and the target as the call leaves them. -/
def _bind {Target : Type} [result_target Target]
    (self : _result_entry_t) (target : Target) (i : Nat) : _result_entry_t × Target :=
  let r := result_target._bind_floating_point_result target i self._value self._is_null
  ({ self with _value := r.2.1, _is_null := r.2.2 }, r.1)

/-- The states a cell reaches through its own operations: those of the two
constructors, closed under `assign`, `validate` and `invalidate`. -/
inductive reachable : _result_entry_t → Prop where
  | ctor : reachable ctor
  | ctor_data (data : Option String) (len : Nat) : reachable (ctor_data data len)
  | assign (s : _result_entry_t) (data : Option String) (len : Nat) :
      reachable s → reachable (s.assign data len)
  | validate (s : _result_entry_t) : reachable s → reachable s.validate
  | invalidate (s : _result_entry_t) : reachable s → reachable s.invalidate

end _result_entry_t

/-- A backend whose column is NULL in the fetched row; it keeps the indices
bound so far. -/
structure null_column_target where
  bound : List Nat
deriving DecidableEq

/-- The hook of `null_column_target` sets the null flag through `is_null` and
leaves the buffer behind `value` as it finds it. -/
instance null_column_target_hook : result_target null_column_target where
  _bind_floating_point_result target index value _ :=
    ({ bound := target.bound ++ [index] }, value, true)
/-! ## `floating_point::_is_valid_operand` and the operators -/

/-- The constant `_is_valid_operand<T>::value`. -/
def _is_valid_operand (T : Type) [inst : type_traits T] : Bool :=
  inst.is_expression_t -- expressions are OK
    && inst.is_numeric_t -- the correct value type is required, of course

namespace expression_operators

/-- Binary `operator +(T t)` of `expression_operators<Base>`; `Rhs` is
`vendor::wrap_operand_t<T>` and `wrap_operand` builds `rhs{t}`. -/
def operator_plus {Base T Rhs : Type} [type_traits Rhs] (wrap_operand : T → Rhs)
    (self : Base) (t : T) : Except String (vendor.plus_t Base floating_point Rhs) := do
  static_assert (_is_valid_operand Rhs) "invalid rhs operand"
  return { _lhs := self, _rhs := wrap_operand t }

/-- Binary `operator -(T t)` of `expression_operators<Base>`. -/
def operator_minus {Base T Rhs : Type} [type_traits Rhs] (wrap_operand : T → Rhs)
    (self : Base) (t : T) : Except String (vendor.minus_t Base floating_point Rhs) := do
  static_assert (_is_valid_operand Rhs) "invalid rhs operand"
  return { _lhs := self, _rhs := wrap_operand t }

/-- Binary `operator *(T t)` of `expression_operators<Base>`. -/
def operator_multiplies {Base T Rhs : Type} [type_traits Rhs] (wrap_operand : T → Rhs)
    (self : Base) (t : T) : Except String (vendor.multiplies_t Base floating_point Rhs) := do
  return { _lhs := self, _rhs := wrap_operand t }

/-- Binary `operator /(T t)` of `expression_operators<Base>`. -/
def operator_divides {Base T Rhs : Type} [type_traits Rhs] (wrap_operand : T → Rhs)
    (self : Base) (t : T) : Except String (vendor.divides_t Base Rhs) := do
  return { _lhs := self, _rhs := wrap_operand t }

/-- Unary `operator +()` of `expression_operators<Base>`. -/
def operator_unary_plus {Base : Type} (self : Base) :
    vendor.unary_plus_t floating_point Base :=
  { _rhs := self }

/-- Unary `operator -()` of `expression_operators<Base>`. -/
def operator_unary_minus {Base : Type} (self : Base) :
    vendor.unary_minus_t floating_point Base :=
  { _rhs := self }

end expression_operators

namespace column_operators

/-- Compound `operator +=(T t)` of `column_operators<Base>`. -/
def operator_plus_assign {Base T Rhs : Type} [type_traits Rhs] (wrap_operand : T → Rhs)
    (self : Base) (t : T) :
    Except String (vendor.assignment_t Base (vendor.plus_t Base floating_point Rhs)) := do
  static_assert (_is_valid_operand Rhs) "invalid rhs assignment operand"
  return { _lhs := self, _rhs := { _lhs := self, _rhs := wrap_operand t } }

/-- Compound `operator -=(T t)` of `column_operators<Base>`. -/
def operator_minus_assign {Base T Rhs : Type} [type_traits Rhs] (wrap_operand : T → Rhs)
    (self : Base) (t : T) :
    Except String (vendor.assignment_t Base (vendor.minus_t Base floating_point Rhs)) := do
  static_assert (_is_valid_operand Rhs) "invalid rhs assignment operand"
  return { _lhs := self, _rhs := { _lhs := self, _rhs := wrap_operand t } }

/-- Compound `operator /=(T t)` of `column_operators<Base>`. -/
def operator_divides_assign {Base T Rhs : Type} [type_traits Rhs] (wrap_operand : T → Rhs)
    (self : Base) (t : T) :
    Except String (vendor.assignment_t Base (vendor.divides_t Base Rhs)) := do
  static_assert (_is_valid_operand Rhs) "invalid rhs assignment operand"
  return { _lhs := self, _rhs := { _lhs := self, _rhs := wrap_operand t } }

/-- Compound `operator *=(T t)` of `column_operators<Base>`. -/
def operator_multiplies_assign {Base T Rhs : Type} [type_traits Rhs] (wrap_operand : T → Rhs)
    (self : Base) (t : T) :
    Except String (vendor.assignment_t Base (vendor.multiplies_t Base floating_point Rhs)) := do
  static_assert (_is_valid_operand Rhs) "invalid rhs assignment operand"
  return { _lhs := self, _rhs := { _lhs := self, _rhs := wrap_operand t } }

end column_operators

end floating_point
end detail
end sqlpp


/-! # Properties -/

namespace sqlpp
open detail.floating_point

/-! ## Auxiliary facts -/

theorem of_integer_zero : double.of_integer 0 = double.positive_zero := by decide

theorem to_rat_positive_zero : double.positive_zero.to_rat = some 0 := by
  simp [double.to_rat, double.positive_zero]

theorem to_rat_one_and_a_half : double.one_and_a_half.to_rat = some (3 / 2) := by
  have e1 : ((1023 : Fin 2048) : Nat) = 1023 := by decide
  have e2 : ((2251799813685248 : Fin 4503599627370496) : Nat) = 2251799813685248 := by
    decide
  simp only [double.to_rat, double.one_and_a_half, e1, e2]
  norm_num

theorem to_rat_of_integer_one : (double.of_integer 1).to_rat = some 1 := by
  have h : double.of_integer 1 = ⟨false, 1023, 0⟩ := by decide
  have e1 : ((1023 : Fin 2048) : Nat) = 1023 := by decide
  have e2 : ((0 : Fin 4503599627370496) : Nat) = 0 := by decide
  rw [h]
  simp only [double.to_rat, e1, e2]
  norm_num

theorem strtoll_one_point_five : strtoll "1.5".toList = 1 := by decide

/-- In every reachable state of a result cell, a null cell holds `+0.0`. -/
theorem reachable_null_value (s : _result_entry_t) (h : _result_entry_t.reachable s) :
    s._is_null = true → s._value = double.positive_zero := by
  induction h with
  | ctor => intro _; exact of_integer_zero
  | ctor_data data len =>
    cases data with
    | none => intro _; exact of_integer_zero
    | some str => intro hn; simp [_result_entry_t.ctor_data] at hn
  | assign s data len _ _ =>
    cases data with
    | none => intro _; exact of_integer_zero
    | some str => intro hn; simp [_result_entry_t.assign] at hn
  | validate s _ ih => exact ih
  | invalidate s _ _ => intro _; exact of_integer_zero

/-! ## Result cell: parsing -/

/-- C1 (defect of the code). A result cell that is assigned the decimal text
"1.5" does not hold 1.5: from every prior state, in every mode, the cell is
valid and not null, and `value()` returns the double converted from the
integer 1 that `strtoll` reads, which stands for the number 1 and differs from
the double 1.5. -/
theorem C1_assign_reads_leading_integer (db : Db) (NullIsTrivial : Bool)
    (s : _result_entry_t) (len : Nat) :
    (s.assign (some "1.5") len).is_null db = .ok false
    ∧ (s.assign (some "1.5") len).value db NullIsTrivial = .ok (double.of_integer 1)
    ∧ (double.of_integer 1).to_rat = some 1
    ∧ double.one_and_a_half.to_rat = some (3 / 2)
    ∧ (s.assign (some "1.5") len).value db NullIsTrivial ≠ .ok double.one_and_a_half := by
  have hv : (s.assign (some "1.5") len).value db NullIsTrivial
      = .ok (double.of_integer 1) := by
    obtain ⟨a, t⟩ := db
    cases a <;> cases t <;> cases NullIsTrivial <;> rfl
  refine ⟨?_, hv, to_rat_of_integer_one, to_rat_one_and_a_half, ?_⟩
  · obtain ⟨a, t⟩ := db
    cases a <;> cases t <;> rfl
  · rw [hv]
    decide

/-! ## Result cell: validity and null policy -/

/-- C2, as stated, fails: in checked mode with null not trivial, a cell that
was invalidated and then validated, or assigned the null pointer, raises
"accessing value of NULL field" on `value()`. -/
theorem C2_value_after_revalidation_raises :
    (_result_entry_t.ctor.invalidate.validate).value (Db.mk false false) false
        = .error (failure.exception "accessing value of NULL field")
    ∧ (_result_entry_t.ctor.invalidate.assign none 0).value (Db.mk false false) false
        = .error (failure.exception "accessing value of NULL field") := by
  decide

/-- C2, amended. In checked mode, for every invalidated cell, after
`validate()` or `assign(data, len)`: `is_null()` returns (true after
`validate()` and after assigning the null pointer, false after assigning
text); `value()` returns the parsed number after assigning text; and after
`validate()` or assigning the null pointer, `value()` returns zero when null
is trivial (by `NullIsTrivial` or by the connector flag) and raises
"accessing value of NULL field" when it is not. -/
theorem C2_access_after_revalidation (db : Db)
    (hdb : db.connector_assert_result_validity_t = false) (NullIsTrivial : Bool)
    (s : _result_entry_t) (data : Option String) (len : Nat) :
    s.invalidate.validate.is_null db = .ok true
    ∧ s.invalidate.validate.value db NullIsTrivial
        = (if NullIsTrivial || db.connector_null_result_is_trivial_value_t
           then .ok double.positive_zero
           else .error (failure.exception "accessing value of NULL field"))
    ∧ (s.invalidate.assign data len).is_null db = .ok data.isNone
    ∧ (s.invalidate.assign data len).value db NullIsTrivial
        = (match data with
           | some text => .ok (double.of_integer (strtoll text.toList))
           | none =>
             if NullIsTrivial || db.connector_null_result_is_trivial_value_t
             then .ok double.positive_zero
             else .error (failure.exception "accessing value of NULL field")) := by
  obtain ⟨a, t⟩ := db
  simp only at hdb
  subst hdb
  refine ⟨?_, ?_, ?_, ?_⟩
  · rfl
  · cases t <;> cases NullIsTrivial <;> rfl
  · cases data <;> rfl
  · cases data with
    | none => cases t <;> cases NullIsTrivial <;> rfl
    | some text => cases t <;> cases NullIsTrivial <;> rfl

/-- Witness of C2 (amended): checked mode, null not trivial, the cell assigned
"7" before it is invalidated, then assigned "42". -/
theorem C2_access_after_revalidation_witness :
    (Db.mk false false).connector_assert_result_validity_t = false
    ∧ ((_result_entry_t.ctor.assign (some "7") 1).invalidate.assign (some "42") 2).value
        (Db.mk false false) false = .ok (double.of_integer 42) :=
  ⟨rfl, by
    have h := (C2_access_after_revalidation (Db.mk false false) rfl false
      (_result_entry_t.ctor.assign (some "7") 1) (some "42") 2).2.2.2
    rw [h]
    decide⟩

/-- C4. In checked mode, a cell that is not valid raises "accessing is_null in
non-existing row" on `is_null()` and "accessing value in non-existing row" on
`value()`, whatever the null-trivial settings; the default-constructed cell
and every invalidated cell are such cells. -/
theorem C4_invalid_cell_raises_non_existing_row (db : Db)
    (hdb : db.connector_assert_result_validity_t = false) (NullIsTrivial : Bool)
    (s : _result_entry_t) :
    (s._is_valid = false →
        s.is_null db = .error (failure.exception "accessing is_null in non-existing row")
        ∧ s.value db NullIsTrivial
            = .error (failure.exception "accessing value in non-existing row"))
    ∧ _result_entry_t.ctor.is_null db
        = .error (failure.exception "accessing is_null in non-existing row")
    ∧ _result_entry_t.ctor.value db NullIsTrivial
        = .error (failure.exception "accessing value in non-existing row")
    ∧ s.invalidate.is_null db
        = .error (failure.exception "accessing is_null in non-existing row")
    ∧ s.invalidate.value db NullIsTrivial
        = .error (failure.exception "accessing value in non-existing row") := by
  obtain ⟨a, t⟩ := db
  simp only at hdb
  subst hdb
  refine ⟨?_, rfl, rfl, rfl, rfl⟩
  intro hs
  obtain ⟨v, n, x⟩ := s
  simp only at hs
  subst hs
  exact ⟨rfl, rfl⟩

/-- Witness of C4: checked mode, a cell that held "3" and was invalidated. -/
theorem C4_invalid_cell_raises_non_existing_row_witness :
    (Db.mk false true).connector_assert_result_validity_t = false
    ∧ ((_result_entry_t.ctor.assign (some "3") 1).invalidate).value (Db.mk false true) true
        = .error (failure.exception "accessing value in non-existing row") :=
  ⟨rfl, (C4_invalid_cell_raises_non_existing_row (Db.mk false true) rfl true
    (_result_entry_t.ctor.assign (some "3") 1)).2.2.2.2⟩

/-- C6. From every prior state, for every data pointer and length,
`assign(data, len)` leaves the cell valid with the null flag equal to
(data is the null pointer); assigning the null pointer stores zero. -/
theorem C6_assign_sets_valid_and_null (s : _result_entry_t) (data : Option String)
    (len : Nat) :
    (s.assign data len)._is_valid = true
    ∧ (s.assign data len)._is_null = data.isNone
    ∧ (s.assign none len)._value = double.positive_zero
    ∧ double.positive_zero.to_rat = some 0 :=
  ⟨rfl, rfl, of_integer_zero, to_rat_positive_zero⟩

/-- C7. From every state, `invalidate()` yields exactly the state of a
default-constructed cell: not valid, null, value zero. -/
theorem C7_invalidate_resets (s : _result_entry_t) :
    s.invalidate = _result_entry_t.ctor
    ∧ s.invalidate = { _is_valid := false, _is_null := true, _value := double.positive_zero } := by
  refine ⟨rfl, ?_⟩
  show _result_entry_t.mk false true (double.of_integer 0) = _
  rw [of_integer_zero]

/-! ## Parameter binder -/

/-- C8. From every binder state, after assigning a value `v` the binder is not
null and holds `v`; after assigning the null sentinel it is null and holds
zero; assigning 30 and then null leaves (is_null = true, value = 0). -/
theorem C8_parameter_assignment (p : _parameter_t) (v : _cpp_value_type) :
    (p.assign_value v).is_null = false
    ∧ (p.assign_value v).value = v
    ∧ p.assign_null.is_null = true
    ∧ p.assign_null.value = double.positive_zero
    ∧ (p.assign_value (double.of_integer 30)).assign_null
        = { _value := double.positive_zero, _is_null := true } := by
  refine ⟨rfl, rfl, rfl, of_integer_zero, ?_⟩
  show _parameter_t.mk (double.of_integer 0) true = _
  rw [of_integer_zero]

/-- C9. A default-constructed binder is null and holds zero; a binder
constructed from a value `v` is not null and holds `v`. -/
theorem C9_parameter_constructors (v : _cpp_value_type) :
    _parameter_t.ctor.is_null = true
    ∧ _parameter_t.ctor.value = double.positive_zero
    ∧ (_parameter_t.ctor_value v).is_null = false
    ∧ (_parameter_t.ctor_value v).value = v :=
  ⟨rfl, of_integer_zero, rfl, rfl⟩

/-- C10. For every binder state, target and index, `_bind(target, index)`
leaves the target as one call of its floating-point parameter hook with that
index, the stored value and the null flag leaves it, and leaves the binder
unchanged; a target that records its calls has exactly that one call added. -/
theorem C10_bind_forwards_once (p : _parameter_t) (index : Nat) :
    (∀ (Target : Type) [parameter_target Target] (target : Target),
        (p._bind target index).2
          = parameter_target._bind_floating_point_parameter target index p.value p.is_null
        ∧ (p._bind target index).1 = p)
    ∧ (∀ (target : recording_target),
        (p._bind target index).2.calls = target.calls ++ [(index, p.value, p.is_null)]
        ∧ ((p._bind target index).2.calls).length = target.calls.length + 1) := by
  refine ⟨fun _ _ _ => ⟨rfl, rfl⟩, fun target => ⟨rfl, ?_⟩⟩
  show (target.calls ++ [(index, p._value, p._is_null)]).length = _
  simp

/-! ## Composition operators -/

/-- What `operator +` does with a right-hand operand, by the operand check. -/
theorem operator_plus_eq {Base T Rhs : Type} [type_traits Rhs] (wrap_operand : T → Rhs)
    (self : Base) (t : T) :
    expression_operators.operator_plus wrap_operand self t
      = if _is_valid_operand Rhs then .ok { _lhs := self, _rhs := wrap_operand t }
        else .error "invalid rhs operand" := by
  unfold expression_operators.operator_plus static_assert
  cases _is_valid_operand Rhs <;> rfl

/-- What `operator -` does with a right-hand operand, by the operand check. -/
theorem operator_minus_eq {Base T Rhs : Type} [type_traits Rhs] (wrap_operand : T → Rhs)
    (self : Base) (t : T) :
    expression_operators.operator_minus wrap_operand self t
      = if _is_valid_operand Rhs then .ok { _lhs := self, _rhs := wrap_operand t }
        else .error "invalid rhs operand" := by
  unfold expression_operators.operator_minus static_assert
  cases _is_valid_operand Rhs <;> rfl

/-- The binary `operator *` builds its node for every right-hand operand. -/
theorem operator_multiplies_eq {Base T Rhs : Type} [type_traits Rhs]
    (wrap_operand : T → Rhs) (self : Base) (t : T) :
    expression_operators.operator_multiplies wrap_operand self t
      = .ok { _lhs := self, _rhs := wrap_operand t } :=
  rfl

/-- C3 (defect of the code). With a text literal as right-hand operand, which
is not numeric, `operator +` and `operator -` are rejected with "invalid rhs
operand", but `operator *` is accepted and builds the multiply node. -/
theorem C3_multiplies_accepts_non_numeric_operand :
    _is_valid_operand vendor.text_operand = false
    ∧ expression_operators.operator_plus vendor.text_operand.mk (column_t.mk "price") "abc"
        = .error "invalid rhs operand"
    ∧ expression_operators.operator_minus vendor.text_operand.mk (column_t.mk "price") "abc"
        = .error "invalid rhs operand"
    ∧ expression_operators.operator_multiplies vendor.text_operand.mk (column_t.mk "price")
        "abc" = .ok { _lhs := column_t.mk "price", _rhs := vendor.text_operand.mk "abc" } := by
  decide

/-! ## The MAX wrapper -/

/-- If the routine of `Expr` appends the text `render e` to every context, the
routine of `max_t<Expr>` appends "MAX(", that text, and ")". -/
theorem max_t_serializer_appends {Context Expr : Type} [output_context Context]
    [serializer_t Context Expr] (render : Expr → String)
    (h : ∀ (e : Expr) (context : Context),
      output_context.text (serialize e context) = output_context.text context ++ render e)
    (m : vendor.max_t Expr) (context : Context) :
    output_context.text (serialize m context)
      = output_context.text context ++ ("MAX(" ++ render m._expr ++ ")") := by
  show output_context.text (output_context.append
      (serialize m._expr (output_context.append context "MAX(")) ")") = _
  rw [output_context.text_append, h, output_context.text_append]
  simp only [String.append_assoc]

/-- C11. Serializing the MAX wrapper of `e` into a context appends "MAX(",
then lets the routine of `e` write, then appends ")"; when the routine of `e`
appends the text `render e`, the text of the context afterwards is its text
before, followed by "MAX(", `render e` and ")", and for a wrapper of a wrapper
by "MAX(MAX(", `render e` and "))". The node is an input of the routine only. -/
theorem C11_max_serializes_recursively {Context Expr : Type} [output_context Context]
    [serializer_t Context Expr] (render : Expr → String)
    (h : ∀ (e : Expr) (context : Context),
      output_context.text (serialize e context) = output_context.text context ++ render e)
    (e : Expr) (context : Context) :
    serialize (vendor.max_t.mk e) context
        = output_context.append (serialize e (output_context.append context "MAX(")) ")"
    ∧ output_context.text (serialize (vendor.max_t.mk e) context)
        = output_context.text context ++ "MAX(" ++ render e ++ ")"
    ∧ output_context.text (serialize (vendor.max_t.mk (vendor.max_t.mk e)) context)
        = output_context.text context ++ "MAX(MAX(" ++ render e ++ "))" := by
  refine ⟨rfl, ?_, ?_⟩
  · rw [max_t_serializer_appends render h]
    simp only [String.append_assoc]
  · rw [max_t_serializer_appends (fun m => "MAX(" ++ render m._expr ++ ")")
      (max_t_serializer_appends render h)]
    have h1 : "MAX(MAX(" = "MAX(" ++ "MAX(" := by decide
    have h2 : "))" = ")" ++ ")" := by decide
    rw [h1, h2]
    simp only [String.append_assoc]

/-- Witness of C11: the column `age`, which renders as its name, wrapped once
and twice, serialized after the text "SELECT ". -/
theorem C11_max_serializes_recursively_witness :
    (∀ (e : column_t) (context : string_context),
      output_context.text (serialize e context) = output_context.text context ++ e._name)
    ∧ output_context.text (serialize (vendor.max_t.mk (column_t.mk "age"))
        (string_context.mk "SELECT ")) = "SELECT MAX(age)"
    ∧ output_context.text (serialize (vendor.max_t.mk (vendor.max_t.mk (column_t.mk "age")))
        (string_context.mk "SELECT ")) = "SELECT MAX(MAX(age))" :=
  ⟨fun _ _ => rfl,
   (C11_max_serializes_recursively (fun e : column_t => e._name) (fun _ _ => rfl)
      (column_t.mk "age") (string_context.mk "SELECT ")).2.1.trans (by decide),
   (C11_max_serializes_recursively (fun e : column_t => e._name) (fun _ _ => rfl)
      (column_t.mk "age") (string_context.mk "SELECT ")).2.2.trans (by decide)⟩

/-- C12. `max(t)` builds a node exactly when the wrapped operand is a value,
and is otherwise rejected with no node built; the node built holds the wrapped
argument; the display name is "MAX"; the value kind of the node has the
markers of the argument's base value kind, with the named-expression marker
set. -/
theorem C12_max_requires_value {T Rhs : Type} [inst : type_traits Rhs]
    [kind : expression_value_type Rhs] (wrap_operand : T → Rhs) (t : T) :
    ((∃ node, max wrap_operand t = .ok node) ↔ inst.is_value_t = true)
    ∧ max wrap_operand t
        = (if inst.is_value_t then .ok { _expr := wrap_operand t }
           else .error "max() requires a value expression as argument")
    ∧ vendor.max_t._get_name = "MAX"
    ∧ (vendor.max_t._value_type Rhs)._is_named_expression = true
    ∧ (vendor.max_t._value_type Rhs)._is_numeric = kind._base_value_type._is_numeric
    ∧ (vendor.max_t._value_type Rhs)._is_floating_point
        = kind._base_value_type._is_floating_point
    ∧ (vendor.max_t._value_type Rhs)._is_value = kind._base_value_type._is_value
    ∧ (vendor.max_t._value_type Rhs)._is_expression
        = kind._base_value_type._is_expression := by
  have hmax : max wrap_operand t
      = (if inst.is_value_t then .ok { _expr := wrap_operand t }
         else .error "max() requires a value expression as argument") := by
    unfold max vendor.max_t.ctor static_assert
    cases inst.is_value_t <;> rfl
  refine ⟨?_, hmax, rfl, rfl, rfl, rfl, rfl, rfl⟩
  rw [hmax]
  cases inst.is_value_t <;> simp

/-! ## Composition operators, continued -/

/-- C13. For an operand the compound assignments accept, each of `+=`, `-=`,
`*=`, `/=` on a target `a` yields the assignment node whose target is `a` and
whose assigned expression is the plus, minus, multiplies or divides node of
`a` and the wrapped operand: the node the binary operator builds from them. -/
theorem C13_compound_assignment_nodes {Base T Rhs : Type} [type_traits Rhs]
    (wrap_operand : T → Rhs) (a : Base) (t : T)
    (h : _is_valid_operand Rhs = true) :
    (column_operators.operator_plus_assign wrap_operand a t
        = .ok { _lhs := a, _rhs := { _lhs := a, _rhs := wrap_operand t } }
      ∧ expression_operators.operator_plus wrap_operand a t
        = .ok { _lhs := a, _rhs := wrap_operand t })
    ∧ (column_operators.operator_minus_assign wrap_operand a t
        = .ok { _lhs := a, _rhs := { _lhs := a, _rhs := wrap_operand t } }
      ∧ expression_operators.operator_minus wrap_operand a t
        = .ok { _lhs := a, _rhs := wrap_operand t })
    ∧ (column_operators.operator_multiplies_assign wrap_operand a t
        = .ok { _lhs := a, _rhs := { _lhs := a, _rhs := wrap_operand t } }
      ∧ expression_operators.operator_multiplies wrap_operand a t
        = .ok { _lhs := a, _rhs := wrap_operand t })
    ∧ (column_operators.operator_divides_assign wrap_operand a t
        = .ok { _lhs := a, _rhs := { _lhs := a, _rhs := wrap_operand t } }
      ∧ expression_operators.operator_divides wrap_operand a t
        = .ok { _lhs := a, _rhs := wrap_operand t }) := by
  unfold column_operators.operator_plus_assign column_operators.operator_minus_assign
    column_operators.operator_multiplies_assign column_operators.operator_divides_assign
    expression_operators.operator_plus expression_operators.operator_minus
    expression_operators.operator_multiplies expression_operators.operator_divides
    static_assert
  rw [h]
  exact ⟨⟨rfl, rfl⟩, ⟨rfl, rfl⟩, ⟨rfl, rfl⟩, ⟨rfl, rfl⟩⟩

/-- Witness of C13: the column `price` and the floating-point literal 2. -/
theorem C13_compound_assignment_nodes_witness :
    _is_valid_operand vendor.floating_point_operand = true
    ∧ column_operators.operator_multiplies_assign vendor.floating_point_operand.mk
        (column_t.mk "price") (double.of_integer 2)
        = .ok { _lhs := column_t.mk "price"
                _rhs := { _lhs := column_t.mk "price"
                          _rhs := vendor.floating_point_operand.mk (double.of_integer 2) } } :=
  ⟨by decide, (C13_compound_assignment_nodes vendor.floating_point_operand.mk
    (column_t.mk "price") (double.of_integer 2) (by decide)).2.2.1.1⟩

/-- C14, as stated, fails: an operand that is a numeric expression and no
value passes the valid-operand check. -/
theorem C14_valid_operand_need_not_be_value :
    _is_valid_operand vendor.numeric_non_value_operand = true
    ∧ vendor.numeric_non_value_operand_traits.is_value_t = false := by
  decide

/-- C14, amended. The valid-operand check accepts an operand exactly when the
operand reports `is_expression` and `is_numeric`; `is_value` is not read. -/
theorem C14_valid_operand_iff (T : Type) [inst : type_traits T] :
    _is_valid_operand T = true
      ↔ inst.is_expression_t = true ∧ inst.is_numeric_t = true := by
  unfold _is_valid_operand
  simp

/-- C15. The binary `operator /` accepts every right-hand operand and yields
the divides node of the left expression and the wrapped operand; so it does
for a text literal, which the valid-operand check refuses. -/
theorem C15_divides_accepts_every_operand {Base T Rhs : Type} [type_traits Rhs]
    (wrap_operand : T → Rhs) (a : Base) (t : T) :
    expression_operators.operator_divides wrap_operand a t
        = .ok { _lhs := a, _rhs := wrap_operand t }
    ∧ _is_valid_operand vendor.text_operand = false
    ∧ expression_operators.operator_divides vendor.text_operand.mk a "abc"
        = .ok { _lhs := a, _rhs := vendor.text_operand.mk "abc" } :=
  ⟨rfl, rfl, rfl⟩

/-! ## Result cell, continued -/

/-- C16. The state after `assign(data, len)` depends on `data` only: two prior
states and two lengths give the same cell, and that cell is the one the
constructor builds from `(data, len)`. -/
theorem C16_assign_depends_on_data_only (s1 s2 : _result_entry_t) (data : Option String)
    (n1 n2 len : Nat) :
    s1.assign data n1 = s2.assign data n2
    ∧ s1.assign data n1 = _result_entry_t.ctor_data data len :=
  ⟨rfl, rfl⟩

/-- C17. With the same null-trivial configuration, assert mode and checked
mode return the same results: `is_null()` and `value()` return a result in
checked mode exactly when they return it in assert mode, and an assertion
fails in assert mode exactly when checked mode raises. -/
theorem C17_assert_mode_agrees_with_checked_mode (trivial NullIsTrivial : Bool)
    (s : _result_entry_t) :
    (∀ b, s.is_null (Db.mk false trivial) = .ok b ↔ s.is_null (Db.mk true trivial) = .ok b)
    ∧ (∀ v, s.value (Db.mk false trivial) NullIsTrivial = .ok v
          ↔ s.value (Db.mk true trivial) NullIsTrivial = .ok v)
    ∧ (s.is_null (Db.mk true trivial) = .error failure.assert_failure
          ↔ ∃ what, s.is_null (Db.mk false trivial) = .error (failure.exception what))
    ∧ (s.value (Db.mk true trivial) NullIsTrivial = .error failure.assert_failure
          ↔ ∃ what, s.value (Db.mk false trivial) NullIsTrivial
              = .error (failure.exception what)) := by
  obtain ⟨v, n, x⟩ := s
  cases v <;> cases n <;> cases trivial <;> cases NullIsTrivial <;>
    simp [_result_entry_t.is_null, _result_entry_t.value, c_assert, bind, Except.bind,
      pure, Except.pure, throw, throwThe, MonadExceptOf.throw]

/-- C18. In every state of a result cell reachable from its constructors by
`assign`, `validate` and `invalidate`, a cell that is not valid is null and a
null cell holds zero; in every state of a parameter binder reachable from its
constructors by assignments, a null binder holds zero. -/
theorem C18_null_holds_zero (s : _result_entry_t) (p : _parameter_t)
    (hs : _result_entry_t.reachable s) (hp : _parameter_t.reachable p) :
    (s._is_valid = false → s._is_null = true)
    ∧ (s._is_null = true → s._value = double.positive_zero)
    ∧ (p._is_null = true → p._value = double.positive_zero) := by
  refine ⟨?_, reachable_null_value s hs, ?_⟩
  · induction hs with
    | ctor => intro _; rfl
    | ctor_data data len => intro hv; simp [_result_entry_t.ctor_data] at hv
    | assign s data len _ _ => intro hv; simp [_result_entry_t.assign] at hv
    | validate s _ _ => intro hv; simp [_result_entry_t.validate] at hv
    | invalidate s _ _ => intro _; rfl
  · induction hp with
    | ctor => intro _; exact of_integer_zero
    | ctor_value value => intro hn; simp [_parameter_t.ctor_value] at hn
    | assign_value p value _ _ => intro hn; simp [_parameter_t.assign_value] at hn
    | assign_null p _ _ => intro _; exact of_integer_zero

/-- Witness of C18: a cell assigned "7", validated and invalidated; a binder
assigned 30 and then null. -/
theorem C18_null_holds_zero_witness :
    _result_entry_t.reachable ((_result_entry_t.ctor.assign (some "7") 1).validate.invalidate)
    ∧ _parameter_t.reachable
        ((_parameter_t.ctor.assign_value (double.of_integer 30)).assign_null)
    ∧ ((_result_entry_t.ctor.assign (some "7") 1).validate.invalidate)._value
        = double.positive_zero
    ∧ ((_parameter_t.ctor.assign_value (double.of_integer 30)).assign_null)._value
        = double.positive_zero :=
  have hs : _result_entry_t.reachable
      ((_result_entry_t.ctor.assign (some "7") 1).validate.invalidate) :=
    .invalidate _ (.validate _ (.assign _ _ _ .ctor))
  have hp : _parameter_t.reachable
      ((_parameter_t.ctor.assign_value (double.of_integer 30)).assign_null) :=
    .assign_null _ (.assign_value _ _ .ctor)
  ⟨hs, hp, (C18_null_holds_zero _ _ hs hp).2.1 rfl, (C18_null_holds_zero _ _ hs hp).2.2 rfl⟩

/-- C19. For each of the four operator pairs and every right-hand operand, if
the compound assignment builds a node then so does the binary operator on the
same target. -/
theorem C19_compound_acceptance_implies_binary {Base T Rhs : Type} [type_traits Rhs]
    (wrap_operand : T → Rhs) (a : Base) (t : T) :
    ((∃ n, column_operators.operator_plus_assign wrap_operand a t = .ok n)
        → ∃ m, expression_operators.operator_plus wrap_operand a t = .ok m)
    ∧ ((∃ n, column_operators.operator_minus_assign wrap_operand a t = .ok n)
        → ∃ m, expression_operators.operator_minus wrap_operand a t = .ok m)
    ∧ ((∃ n, column_operators.operator_multiplies_assign wrap_operand a t = .ok n)
        → ∃ m, expression_operators.operator_multiplies wrap_operand a t = .ok m)
    ∧ ((∃ n, column_operators.operator_divides_assign wrap_operand a t = .ok n)
        → ∃ m, expression_operators.operator_divides wrap_operand a t = .ok m) := by
  unfold column_operators.operator_plus_assign column_operators.operator_minus_assign
    expression_operators.operator_plus expression_operators.operator_minus static_assert
  refine ⟨?_, ?_, fun _ => ⟨_, rfl⟩, fun _ => ⟨_, rfl⟩⟩
  · cases _is_valid_operand Rhs
    · rintro ⟨n, hn⟩; cases hn
    · intro _; exact ⟨_, rfl⟩
  · cases _is_valid_operand Rhs
    · rintro ⟨n, hn⟩; cases hn
    · intro _; exact ⟨_, rfl⟩

/-- Witness of C19: `price += 2` builds a node, hence so does `price + 2`. -/
theorem C19_compound_acceptance_implies_binary_witness :
    (∃ n, column_operators.operator_plus_assign vendor.floating_point_operand.mk
        (column_t.mk "price") (double.of_integer 2) = .ok n)
    ∧ ∃ m, expression_operators.operator_plus vendor.floating_point_operand.mk
        (column_t.mk "price") (double.of_integer 2) = .ok m :=
  ⟨⟨_, rfl⟩, (C19_compound_acceptance_implies_binary vendor.floating_point_operand.mk
    (column_t.mk "price") (double.of_integer 2)).1 ⟨_, rfl⟩⟩

/-! ## Reading integers: `strtoll` and the conversion to `double` -/

/-- What the parser sees of the character of a decimal digit. -/
theorem digitChar_facts (d : Nat) (h : d < 10) :
    (Nat.digitChar d).isDigit = true ∧ (Nat.digitChar d).toNat - 48 = d
    ∧ isspace (Nat.digitChar d) = false ∧ Nat.digitChar d ≠ '-' ∧ Nat.digitChar d ≠ '+' := by
  interval_cases d <;> decide

/-- Reading the digits that `Nat.toDigitsCore` writes for `n` leaves the
accumulator at `n`, and reading goes on with what follows them. -/
theorem strtoll_digits_toDigitsCore (fuel : Nat) :
    ∀ (n : Nat) (ds R : List Char), n < fuel →
      strtoll_digits 0 (Nat.toDigitsCore 10 fuel n ds ++ R) = strtoll_digits n (ds ++ R) := by
  induction fuel with
  | zero => intro n ds R h; omega
  | succ fuel ih =>
    intro n ds R h
    have hd := digitChar_facts (n % 10) (Nat.mod_lt _ (by norm_num))
    simp only [Nat.toDigitsCore]
    split
    · rename_i h0
      have hn : n % 10 = n := Nat.mod_eq_of_lt (by omega)
      rw [hn] at hd
      simp only [hn, List.cons_append, strtoll_digits, hd.1, if_true, hd.2.1, Nat.zero_mul,
        Nat.zero_add]
      rfl
    · rename_i h0
      rw [ih (n / 10) _ R (by omega)]
      simp only [List.cons_append, strtoll_digits, hd.1, if_true, hd.2.1]
      congr 1
      omega

/-- The digits written for a number start with the character of a digit. -/
theorem toDigitsCore_head (fuel n : Nat) :
    ∀ ds : List Char, ∃ d, d < 10 ∧ ∃ tl, Nat.toDigitsCore 10 (fuel + 1) n ds = Nat.digitChar d :: tl := by
  induction fuel generalizing n with
  | zero =>
    intro ds
    refine ⟨n % 10, Nat.mod_lt _ (by norm_num), ds, ?_⟩
    simp [Nat.toDigitsCore]
  | succ fuel ih =>
    intro ds
    rw [Nat.toDigitsCore]
    split
    · exact ⟨n % 10, Nat.mod_lt _ (by norm_num), ds, rfl⟩
    · exact ih _ _

/-- Reading stops at the end of the text and at a character that is no digit. -/
theorem strtoll_digits_stop (acc : Nat) (R : List Char)
    (hR : ∀ c ∈ R.head?, c.isDigit = false) : strtoll_digits acc R = acc := by
  cases R with
  | nil => rfl
  | cons c cs =>
    have hc : c.isDigit = false := hR c (by simp)
    simp [strtoll_digits, hc]

/-- Reading the decimal digits of `m`, followed by no digit, gives `m`. -/
theorem strtoll_digits_toDigits (m : Nat) (R : List Char)
    (hR : ∀ c ∈ R.head?, c.isDigit = false) :
    strtoll_digits 0 (Nat.toDigits 10 m ++ R) = m := by
  unfold Nat.toDigits
  rw [strtoll_digits_toDigitsCore (m + 1) m [] R (by omega)]
  exact strtoll_digits_stop m R hR

/-- The call `strtoll` reads a `long long` back from its base-10 text, whatever
follows the text, as long as no digit follows it directly. -/
theorem strtoll_decimal_text (n : Int) (hlo : LLONG_MIN ≤ n) (hhi : n ≤ LLONG_MAX)
    (R : List Char) (hR : ∀ c ∈ R.head?, c.isDigit = false) :
    strtoll (decimal_text n ++ R) = n := by
  have hclamp : strtoll_clamp n = n := by
    unfold strtoll_clamp
    rw [if_neg (by omega), if_neg (by omega)]
  obtain ⟨d, hd, tl, htl⟩ := toDigitsCore_head n.natAbs n.natAbs []
  have hf := digitChar_facts d hd
  have hval := strtoll_digits_toDigits n.natAbs R hR
  unfold Nat.toDigits at hval
  unfold decimal_text Nat.toDigits
  by_cases hneg : n < 0
  · rw [if_pos hneg]
    have hsp : isspace '-' = false := by decide
    simp only [strtoll, List.cons_append, List.dropWhile_cons, hsp, if_true]
    simp only [Bool.false_eq_true, if_false, hval]
    rw [show (-(n.natAbs : Int)) = n by omega]
    exact hclamp
  · rw [if_neg hneg]
    rw [htl] at hval ⊢
    simp only [strtoll, List.cons_append, List.dropWhile_cons, hf.2.2.1, Bool.false_eq_true,
      if_false, if_neg hf.2.2.2.1, if_neg hf.2.2.2.2]
    rw [List.cons_append] at hval
    rw [hval, show ((n.natAbs : Nat) : Int) = n by omega]
    exact hclamp

/-- Zero has no binary digits. -/
theorem bit_length_aux_zero (fuel : Nat) : double.bit_length_aux fuel 0 = 0 := by
  cases fuel <;> simp [double.bit_length_aux]

/-- A positive `n` below `2 ^ fuel` lies between the two powers of two that its
number of binary digits names. -/
theorem bit_length_aux_spec (fuel : Nat) :
    ∀ n : Nat, 0 < n → n < 2 ^ fuel →
      2 ^ (double.bit_length_aux fuel n - 1) ≤ n ∧ n < 2 ^ double.bit_length_aux fuel n
      ∧ 0 < double.bit_length_aux fuel n := by
  induction fuel with
  | zero => intro n h0 h1; simp at h1; omega
  | succ fuel ih =>
    intro n h0 h1
    have hn : n ≠ 0 := by omega
    simp only [double.bit_length_aux, if_neg hn, Nat.add_sub_cancel]
    by_cases h2 : n / 2 = 0
    · have h3 : n = 1 := by omega
      subst h3
      simp [bit_length_aux_zero]
    · have h4 : n / 2 < 2 ^ fuel := by
        rw [pow_succ] at h1
        omega
      obtain ⟨ha, hb, hc⟩ := ih (n / 2) (by omega) h4
      refine ⟨?_, ?_, by omega⟩
      · have : 2 ^ double.bit_length_aux fuel (n / 2)
            = 2 * 2 ^ (double.bit_length_aux fuel (n / 2) - 1) := by
          rw [← pow_succ', Nat.sub_add_cancel hc]
        omega
      · rw [pow_succ]
        omega

/-- The number a packed normal double stands for. -/
theorem to_rat_pack (s : Bool) (e f : Nat) (he0 : 0 < e) (he : e < 2047)
    (hf : f < 4503599627370496) :
    (double.pack s e f).to_rat
      = some ((if s then -1 else 1) * (2 ^ 52 + (f : ℚ)) * 2 ^ ((e : ℤ) - 1075)) := by
  have h1 : e % 2048 = e := Nat.mod_eq_of_lt (by omega)
  have h2 : f % 4503599627370496 = f := Nat.mod_eq_of_lt hf
  simp only [double.to_rat, double.pack, h1, h2]
  rw [if_neg (by omega), if_neg (by omega)]

/-- The conversion of an integer of magnitude at most `2 ^ 53` is exact. -/
theorem to_rat_of_integer (n : Int) (h : n.natAbs ≤ 2 ^ 53) :
    (double.of_integer n).to_rat = some (n : ℚ) := by
  by_cases hn0 : n = 0
  · subst hn0
    have : double.of_integer 0 = ⟨false, 0, 0⟩ := by decide
    rw [this]
    simp [double.to_rat]
  · have hm0 : 0 < n.natAbs := Int.natAbs_pos.mpr hn0
    have hm64 : n.natAbs < 2 ^ 64 := by
      have : (2:Nat) ^ 53 < 2 ^ 64 := by norm_num
      omega
    obtain ⟨ha, hb, hc⟩ := bit_length_aux_spec 64 n.natAbs hm0 hm64
    by_cases hk : double.bit_length n.natAbs - 1 ≤ 52
    · unfold double.of_integer
      rw [if_neg hn0]
      simp only
      rw [if_pos hk]
      have ha2 : 2 ^ (double.bit_length n.natAbs - 1) ≤ n.natAbs := ha
      generalize hkk : double.bit_length n.natAbs - 1 = k at hk ha2
      have hb2 : n.natAbs < 2 ^ (k + 1) := by
        have : double.bit_length_aux 64 n.natAbs = k + 1 := by
          unfold double.bit_length at hkk
          omega
        rw [this] at hb
        exact hb
      have hpow : (2:Nat) ^ k * 2 ^ (52 - k) = 2 ^ 52 := by
        rw [← pow_add]
        congr 1
        omega
      have hlo : 2 ^ 52 ≤ n.natAbs * 2 ^ (52 - k) := by
        rw [← hpow]
        exact Nat.mul_le_mul_right _ ha2
      have hhi : n.natAbs * 2 ^ (52 - k) < 2 ^ 53 := by
        have h53 : (2:Nat) ^ (k + 1) * 2 ^ (52 - k) = 2 ^ 53 := by
          rw [← pow_add]
          congr 1
          omega
        rw [← h53]
        exact Nat.mul_lt_mul_of_pos_right hb2 (by positivity)
      rw [to_rat_pack _ _ _ (by omega) (by omega) (by omega)]
      congr 1
      have hcast : ((n.natAbs * 2 ^ (52 - k) - 2 ^ 52 : Nat) : ℚ)
          = (n.natAbs : ℚ) * 2 ^ (52 - k) - 2 ^ 52 := by
        rw [Nat.cast_sub hlo]
        push_cast
        ring
      rw [hcast]
      have hz : ((1023 + k : Nat) : ℤ) - 1075 = -((52 - k : Nat) : ℤ) := by omega
      rw [hz, zpow_neg, zpow_natCast]
      have h2 : (2:ℚ) ^ (52 - k) ≠ 0 := by positivity
      have habs : (n : ℚ) = (if decide (n < 0) = true then -1 else 1) * (n.natAbs : ℚ) := by
        by_cases hneg : n < 0
        · simp only [hneg, decide_True, if_true]
          have : (n.natAbs : ℤ) = -n := by omega
          have h3 : (n.natAbs : ℚ) = ((n.natAbs : ℤ) : ℚ) := (Int.cast_natCast _).symm
          rw [h3, this]
          push_cast
          ring
        · simp only [hneg, decide_False, Bool.false_eq_true, if_false]
          have : (n.natAbs : ℤ) = n := by omega
          have h3 : (n.natAbs : ℚ) = ((n.natAbs : ℤ) : ℚ) := (Int.cast_natCast _).symm
          rw [h3, this]
          ring
      rw [habs]
      field_simp
    · have hk53 : n.natAbs = 2 ^ 53 := by
        have h1 : 53 ≤ double.bit_length n.natAbs - 1 := by omega
        have h2 : (2:Nat) ^ 53 ≤ 2 ^ (double.bit_length n.natAbs - 1) :=
          Nat.pow_le_pow_right (by norm_num) h1
        unfold double.bit_length at h2
        omega
      have hcases : n = 9007199254740992 ∨ n = -9007199254740992 := by
        norm_num at hk53
        omega
      rcases hcases with h1 | h1
      · subst h1
        have : double.of_integer 9007199254740992 = ⟨false, 1076, 0⟩ := by decide
        rw [this]
        have e1 : ((1076 : Fin 2048) : Nat) = 1076 := by decide
        have e2 : ((0 : Fin 4503599627370496) : Nat) = 0 := by decide
        simp only [double.to_rat, e1, e2]
        norm_num
      · subst h1
        have : double.of_integer (-9007199254740992) = ⟨true, 1076, 0⟩ := by decide
        rw [this]
        have e1 : ((1076 : Fin 2048) : Nat) = 1076 := by decide
        have e2 : ((0 : Fin 4503599627370496) : Nat) = 0 := by decide
        simp only [double.to_rat, e1, e2]
        norm_num

/-- A valid cell that is not null returns its flag and its value in every
mode. -/
theorem access_valid_non_null (db : Db) (NullIsTrivial : Bool) (x : _cpp_value_type) :
    _result_entry_t.is_null db { _is_valid := true, _is_null := false, _value := x } = .ok false
    ∧ _result_entry_t.value db NullIsTrivial
        { _is_valid := true, _is_null := false, _value := x } = .ok x := by
  obtain ⟨a, t⟩ := db
  cases a <;> cases t <;> cases NullIsTrivial <;> exact ⟨rfl, rfl⟩

/-- C20. For every integer `n` of magnitude at most `2 ^ 53`, assigning its
base-10 text to a cell, from every prior state and in every mode, gives a
valid cell that is not null and whose `value()` is the double that stands for
`n`; so does assigning that text followed by a character that is no digit and
by any further characters; and so does the constructor. -/
theorem C20_assign_reads_decimal_integer (n : Int) (hn : n.natAbs ≤ 2 ^ 53) (db : Db)
    (NullIsTrivial : Bool) (s : _result_entry_t) (len : Nat) (c : Char) (rest : List Char)
    (hc : c.isDigit = false) :
    (double.of_integer n).to_rat = some (n : ℚ)
    ∧ (s.assign (some (String.mk (decimal_text n))) len)._is_valid = true
    ∧ (s.assign (some (String.mk (decimal_text n))) len).is_null db = .ok false
    ∧ (s.assign (some (String.mk (decimal_text n))) len).value db NullIsTrivial
        = .ok (double.of_integer n)
    ∧ (s.assign (some (String.mk (decimal_text n ++ c :: rest))) len)._is_valid = true
    ∧ (s.assign (some (String.mk (decimal_text n ++ c :: rest))) len).is_null db = .ok false
    ∧ (s.assign (some (String.mk (decimal_text n ++ c :: rest))) len).value db NullIsTrivial
        = .ok (double.of_integer n)
    ∧ (_result_entry_t.ctor_data (some (String.mk (decimal_text n ++ c :: rest))) len).value
        db NullIsTrivial = .ok (double.of_integer n) := by
  have h53 : (2 : Nat) ^ 53 = 9007199254740992 := by norm_num
  have hlo : LLONG_MIN ≤ n := by unfold LLONG_MIN; omega
  have hhi : n ≤ LLONG_MAX := by unfold LLONG_MAX; omega
  have h1 : strtoll (decimal_text n) = n := by
    have h := strtoll_decimal_text n hlo hhi [] (by simp)
    rwa [List.append_nil] at h
  have h2 : strtoll (decimal_text n ++ c :: rest) = n :=
    strtoll_decimal_text n hlo hhi (c :: rest) (by simpa using hc)
  have e1 : s.assign (some (String.mk (decimal_text n))) len
      = { _is_valid := true, _is_null := false, _value := double.of_integer n } := by
    show _result_entry_t.mk true false (double.of_integer (strtoll (decimal_text n))) = _
    rw [h1]
  have e2 : s.assign (some (String.mk (decimal_text n ++ c :: rest))) len
      = { _is_valid := true, _is_null := false, _value := double.of_integer n } := by
    show _result_entry_t.mk true false
      (double.of_integer (strtoll (decimal_text n ++ c :: rest))) = _
    rw [h2]
  have e3 : _result_entry_t.ctor_data (some (String.mk (decimal_text n ++ c :: rest))) len
      = { _is_valid := true, _is_null := false, _value := double.of_integer n } := by
    show _result_entry_t.mk true false
      (double.of_integer (strtoll (decimal_text n ++ c :: rest))) = _
    rw [h2]
  have hacc := access_valid_non_null db NullIsTrivial (double.of_integer n)
  rw [e1, e2, e3]
  exact ⟨to_rat_of_integer n hn, rfl, hacc.1, hacc.2, rfl, hacc.1, hacc.2, hacc.2⟩

/-- Witness of C20: the text "3.75" is read as 3. -/
theorem C20_assign_reads_decimal_integer_witness :
    (3 : Int).natAbs ≤ 2 ^ 53
    ∧ (Char.ofNat 46).isDigit = false
    ∧ (double.of_integer 3).to_rat = some 3
    ∧ (_result_entry_t.ctor.assign (some "3.75") 4).value (Db.mk false false) false
        = .ok (double.of_integer 3) :=
  ⟨by decide, by decide,
   by simpa using (C20_assign_reads_decimal_integer 3 (by decide) (Db.mk false false) false
      _result_entry_t.ctor 4 (Char.ofNat 46) "75".toList (by decide)).1,
   (C20_assign_reads_decimal_integer 3 (by decide) (Db.mk false false) false
      _result_entry_t.ctor 4 (Char.ofNat 46) "75".toList (by decide)).2.2.2.2.2.2.1⟩

end sqlpp
